import Mathlib

/-!
Verification of the bg-remover image service (src/app.py) against its
natural-language specification. The Python source is shallowly embedded:
pure arithmetic is translated directly; PIL / OpenCV library calls, whose
internals are external to the repository, are modelled by their documented
behaviour (noted at each definition); the Flask endpoint handlers become
functions returning `Except ApiErr _`, the generic `except Exception`
handler of each endpoint becoming the `processingFailure` error.
-/

/-- A pixel with red, green, blue and alpha channels, each an 8-bit value
held as a `Nat`. For images in RGB mode the alpha field is present but
ignored (PIL conversions set it explicitly where the source converts). -/
structure Pix where
  r : Nat
  g : Nat
  b : Nat
  a : Nat
deriving DecidableEq, Repr

/-- A raster image: dimensions plus a total pixel function (pixels outside
the width/height bounds are irrelevant padding of the total function). -/
structure Img where
  width : Nat
  height : Nat
  px : Nat → Nat → Pix

/-- Error taxonomy as it actually exists in src/app.py's endpoint handlers:
`inputMissing` is the explicit `'No image ... provided', 400` return;
`serviceUnavailable` is the explicit `'No background removal method
available', 500` return in remove_background; `processingFailure` is any
exception caught by an endpoint's generic `except Exception` handler,
returned as `str(e), 500`. -/
inductive ApiErr where
  | inputMissing
  | serviceUnavailable
  | processingFailure
deriving DecidableEq, Repr

/-- The HTTP status code src/app.py attaches to each error return. -/
def statusOf : ApiErr → Nat
  | .inputMissing => 400
  | .serviceUnavailable => 500
  | .processingFailure => 500

/- ## Grid layout (create_passport_grid, src/app.py lines 197-262) -/

/-- Line 225: `grid_width = (photo_width * cols) + (margin * (cols + 1))`
with `margin = 20` (line 224). Parameters are `Int` because Python's
`int(...)` admits negative values. -/
def gridWidth (photoWidth cols : Int) : Int :=
  photoWidth * cols + 20 * (cols + 1)

/-- Line 226: `grid_height = (photo_height * rows) + (margin * (rows + 1))`
with `margin = 20`. -/
def gridHeight (photoHeight rows : Int) : Int :=
  photoHeight * rows + 20 * (rows + 1)

/-- Lines 232-235: the double loop `for row in range(rows): for col in
range(cols):` with paste coordinates `x = margin + (col * (photo_width +
margin))`, `y = margin + (row * (photo_height + margin))`, `margin = 20`.
Each element records the cell index `(row, col)` and its top-left paste
coordinate `(x, y)`. Python's `range` of a non-positive bound is empty,
matching `Int.toNat` of a non-positive value being `0`. -/
def gridPastes (rows cols : Int) (photoWidth photoHeight : Int) :
    List ((Nat × Nat) × (Int × Int)) :=
  (List.range rows.toNat).flatMap fun r =>
    (List.range cols.toNat).map fun c =>
      ((r, c), (20 + (c : Int) * (photoWidth + 20),
                20 + (r : Int) * (photoHeight + 20)))

/-- The JSON body of a create-passport-grid request, transport decoding
aside: each grid field is optional, `none` meaning absent from the JSON
(lines 213-218 apply the defaults via `data.get`). -/
structure GridReq where
  cols : Option Int := none
  rows : Option Int := none
  photoWidth : Option Int := none
  photoHeight : Option Int := none

/-- The grid result observed by the claims: the allocated canvas size and
the ordered list of cell paste coordinates. The pixel content of the
canvas (white fill, resized photo copies) is carried out by PIL calls and
is not observed by any claim, so it is not tracked here. -/
structure GridResult where
  canvasW : Int
  canvasH : Int
  pastes : List ((Nat × Nat) × (Int × Int))
deriving DecidableEq, Repr

/-- create_passport_grid, lines 197-262, after transport decoding of the
photo. Defaults 4/4/413/531 per lines 213-218. PIL behaviour modelled:
`Image.resize` (line 221) raises on a non-positive target size and
`Image.new` (line 229) raises on a negative size; each such exception is
caught by the endpoint's generic handler and becomes `processingFailure`
(HTTP 500). There is no validation of the grid parameters anywhere before
these library calls. The `photo` argument only feeds pixel content, which
`GridResult` does not track, so it is unused here. -/
def create_passport_grid (req : GridReq) (_photo : Img) : Except ApiErr GridResult :=
  let cols := req.cols.getD 4
  let rows := req.rows.getD 4
  let photoWidth := req.photoWidth.getD 413
  let photoHeight := req.photoHeight.getD 531
  if photoWidth ≤ 0 ∨ photoHeight ≤ 0 then
    .error .processingFailure
  else
    let gw := gridWidth photoWidth cols
    let gh := gridHeight photoHeight rows
    if gw < 0 ∨ gh < 0 then
      .error .processingFailure
    else
      .ok { canvasW := gw, canvasH := gh,
            pastes := gridPastes rows cols photoWidth photoHeight }

/-- A throwaway 1×1 photo used to instantiate the unused photo argument. -/
def onePixelPhoto : Img :=
  { width := 1, height := 1, px := fun _ _ => ⟨0, 0, 0, 255⟩ }

/-- C1: the claim asserts the default canvas is 1752×2144; the code's own
formula (lines 225-226) gives height 4·531 + 5·20 = 2224, so the claimed
2144 is false. -/
theorem c1_counterexample :
    gridWidth 413 4 = 1752 ∧ gridHeight 531 4 = 2224 ∧
      ¬ (gridWidth 413 4 = 1752 ∧ gridHeight 531 4 = 2144) := by
  refine ⟨by decide, by decide, ?_⟩
  intro h
  exact absurd h.2 (by decide)

/-- C1 (amended): for the default grid specification (cols=4, rows=4,
cellWidth=413, cellHeight=531, margin=20) the grid-layout operation
allocates a canvas of exactly 1752×2224 pixels, and these equal the
derived formulas cols·cellWidth + (cols+1)·margin and
rows·cellHeight + (rows+1)·margin. -/
theorem c1_default_canvas_size :
    ∀ photo : Img,
      ∃ res : GridResult,
        create_passport_grid {} photo = .ok res ∧
        res.canvasW = 1752 ∧ res.canvasH = 2224 ∧
        res.canvasW = 4 * 413 + (4 + 1) * 20 ∧
        res.canvasH = 4 * 531 + (4 + 1) * 20 := by
  intro photo
  refine ⟨_, rfl, by decide, by decide, by decide, by decide⟩

/-- C2: the claim asserts that a grid request with non-positive cols fails
with an InvalidInput (HTTP 400) condition and does not succeed; but the
code performs no validation, and with cols=0 (defaults otherwise) the
operation succeeds, allocating a 20×2224 canvas with no cells pasted. -/
theorem c2_counterexample :
    create_passport_grid { cols := some 0 } onePixelPhoto =
      .ok { canvasW := 20, canvasH := 2224, pastes := [] } := by
  rfl

/-- C2 (amended): the grid operation does not validate its parameters and
has no InvalidInput (400) outcome: with cols=0 and all other parameters
defaulted it succeeds, allocating a 20×2224 canvas with an empty paste
list; the only failures are library exceptions mapped to HTTP 500
(`processingFailure`), e.g. a non-positive cell width at the resize step,
which precedes canvas allocation. -/
theorem c2_no_input_validation :
    (create_passport_grid { cols := some 0 } onePixelPhoto =
       .ok { canvasW := 20, canvasH := 2224, pastes := [] }) ∧
    (create_passport_grid { photoWidth := some 0 } onePixelPhoto =
       .error .processingFailure) ∧
    statusOf .processingFailure = 500 ∧ statusOf .processingFailure ≠ 400 := by
  refine ⟨by rfl, by rfl, rfl, by decide⟩

/-- C7: for every cell at row r and column c (0-indexed) within the grid
bounds, the grid layout pastes the photo at top-left coordinate
x = margin + c·(cellWidth+margin), y = margin + r·(cellHeight+margin),
with margin = 20. -/
theorem c7_paste_coordinates (rows cols photoWidth photoHeight : Int)
    (r c : Nat) (hr : r < rows.toNat) (hc : c < cols.toNat) :
    ((r, c), (20 + (c : Int) * (photoWidth + 20),
              20 + (r : Int) * (photoHeight + 20)))
      ∈ gridPastes rows cols photoWidth photoHeight := by
  unfold gridPastes
  refine List.mem_flatMap.mpr ⟨r, List.mem_range.mpr hr, ?_⟩
  exact List.mem_map.mpr ⟨c, List.mem_range.mpr hc, rfl⟩

/-- C7 witness: under the default specification (413×531 cells, margin 20,
4×4 grid) cell (0,0) is pasted at (20,20) and cell (1,1) at (453,571). -/
theorem c7_paste_coordinates_witness :
    (((0, 0) : Nat × Nat), ((20 : Int), (20 : Int))) ∈ gridPastes 4 4 413 531 ∧
    (((1, 1) : Nat × Nat), ((453 : Int), (571 : Int))) ∈ gridPastes 4 4 413 531 := by
  constructor
  · have h := c7_paste_coordinates 4 4 413 531 0 0 (by decide) (by decide)
    simpa using h
  · have h := c7_paste_coordinates 4 4 413 531 1 1 (by decide) (by decide)
    simpa using h

/- ## Background compositing (change_background, src/app.py lines 148-195) -/

/-- Value of a single hexadecimal digit character, `none` for any other
character. -/
def hexVal (c : Char) : Option Nat :=
  if '0' ≤ c ∧ c ≤ '9' then some (c.toNat - '0'.toNat)
  else if 'a' ≤ c ∧ c ≤ 'f' then some (c.toNat - 'a'.toNat + 10)
  else if 'A' ≤ c ∧ c ≤ 'F' then some (c.toNat - 'A'.toNat + 10)
  else none

/-- Python's `int(s, 16)` as applied to the two-character (or shorter)
slices taken on line 168: raises (`none`) on the empty string or on any
non-hex-digit character, otherwise the base-16 value. (Python additionally
tolerates signs, surrounding whitespace and a `0x` prefix; no claim
involves such strings, and slices of hex-digit strings never produce
them.) -/
def pyIntHex (s : List Char) : Option Nat :=
  match s with
  | [] => none
  | _ =>
    s.foldl (fun acc c => acc.bind fun v => (hexVal c).map fun d => 16 * v + d)
      (some 0)

/-- Python's slice `s[i:i+2]`: up to two characters starting at `i`,
shorter (or empty) when the string ends first. -/
def sliceTwo (s : List Char) (i : Nat) : List Char :=
  (s.drop i).take 2

/-- Lines 167-168: `bg_color = bg_color.lstrip('#')` then
`r, g, b = tuple(int(bg_color[i:i+2], 16) for i in (0, 2, 4))`.
`lstrip('#')` removes every leading `'#'`; a raised `ValueError` from any
`int` call is `none`. -/
def hexColor (s : List Char) : Option (Nat × Nat × Nat) :=
  let t := s.dropWhile (· = '#')
  match pyIntHex (sliceTwo t 0), pyIntHex (sliceTwo t 2), pyIntHex (sliceTwo t 4) with
  | some r, some g, some b => some (r, g, b)
  | _, _, _ => none

/-- One channel of PIL's `Image.alpha_composite` (line 174) over an opaque
background, i.e. the standard over operator
`out = fg·(a/255) + bg·(1 - a/255)` evaluated in 8-bit arithmetic with
round-half-up; the rounding is irrelevant to every claim, all of which fix
the alpha at 0 or 255, where the formula is exact. -/
def overChannel (a fg bg : Nat) : Nat :=
  (fg * a + bg * (255 - a) + 127) / 255

/-- Lines 171-177: build an opaque background of the image's size filled
with `(r, g, b, 255)`, `Image.alpha_composite(background, image)` (image
over background), then `convert('RGB')` — modelled as every output pixel
carrying alpha 255. The input was converted to RGBA on line 161. -/
def compositeOverColor (image : Img) (color : Nat × Nat × Nat) : Img :=
  { width := image.width, height := image.height,
    px := fun x y =>
      let p := image.px x y
      { r := overChannel p.a p.r color.1,
        g := overChannel p.a p.g color.2.1,
        b := overChannel p.a p.b color.2.2,
        a := 255 } }

/-- Line 164: the default `'#FFFFFF'` used when `background_color` is
absent from the request JSON. -/
def defaultBgColor : List Char := ['#', 'F', 'F', 'F', 'F', 'F', 'F']

/-- change_background, lines 148-195, after transport decoding of the
image (which line 161 converts to RGBA). `bgColor` is the JSON field
`background_color`, `none` when absent (line 164 then supplies
`'#FFFFFF'`). A `ValueError` raised by the hex parse on line 168 reaches
the endpoint's generic `except` handler (lines 192-195), which returns
HTTP 500. -/
def change_background (image : Img) (bgColor : Option (List Char)) :
    Except ApiErr Img :=
  match hexColor (bgColor.getD defaultBgColor) with
  | none => .error .processingFailure
  | some c => .ok (compositeOverColor image c)

/-- A 1×1 solid image with the given pixel, for concrete instantiations. -/
def solidImage (p : Pix) : Img :=
  { width := 1, height := 1, px := fun _ _ => p }

/-- The over operator is exact at alpha 255: the foreground wins. -/
theorem overChannel_opaque (fg bg : Nat) : overChannel 255 fg bg = fg := by
  simp only [overChannel]
  omega

/-- The over operator is exact at alpha 0: the background wins. -/
theorem overChannel_transparent (fg bg : Nat) : overChannel 0 fg bg = bg := by
  simp only [overChannel]
  omega

/-- The color string `#ZZZZZZ` of the claims. -/
def zzzzzzColor : List Char := ['#', 'Z', 'Z', 'Z', 'Z', 'Z', 'Z']

/-- C3: the claim asserts a malformed color string fails with an
InvalidInput condition mapped to HTTP 400; in the code the `ValueError`
from the hex parse reaches the generic `except` handler, which returns
HTTP 500, so the failure is not in the 400 class. -/
theorem c3_counterexample :
    change_background (solidImage ⟨1, 2, 3, 255⟩) (some zzzzzzColor) =
        .error .processingFailure ∧
      statusOf .processingFailure = 500 ∧ statusOf .processingFailure ≠ 400 := by
  exact ⟨rfl, rfl, by decide⟩

/-- C3 (amended): for every background-color string the hex parse rejects
(such as `#ZZZZZZ`), the composite operation fails — not a silent default
— but with the generic processing-failure error mapped to HTTP 500; the
code has no InvalidInput (400) path for malformed colors. -/
theorem c3_malformed_color_fails (image : Img) (s : List Char)
    (h : hexColor s = none) :
    change_background image (some s) = .error .processingFailure ∧
      statusOf .processingFailure = 500 := by
  refine ⟨?_, rfl⟩
  simp [change_background, h]

/-- C3 (amended) witness: `#ZZZZZZ` is rejected by the parse and the
operation returns the 500-class processing failure. -/
theorem c3_malformed_color_fails_witness :
    change_background (solidImage ⟨9, 9, 9, 0⟩) (some zzzzzzColor) =
        .error .processingFailure ∧
      statusOf .processingFailure = 500 :=
  c3_malformed_color_fails (solidImage ⟨9, 9, 9, 0⟩) zzzzzzColor rfl

/-- C5: for every color string the parse accepts and every RGBA input
image whose alpha is 255 at every pixel, the composite succeeds and every
output pixel carries exactly the input pixel's own RGB values — the
background color contributes nothing. -/
theorem c5_opaque_image_unchanged (s : List Char) (c : Nat × Nat × Nat)
    (image : Img) (hs : hexColor s = some c)
    (ha : ∀ x y, (image.px x y).a = 255) :
    change_background image (some s) = .ok (compositeOverColor image c) ∧
      ∀ x y, (compositeOverColor image c).px x y =
        ⟨(image.px x y).r, (image.px x y).g, (image.px x y).b, 255⟩ := by
  constructor
  · simp [change_background, hs]
  · intro x y
    simp only [compositeOverColor, ha x y, overChannel_opaque]

/-- C5 witness: color `#00FF00` over a fully opaque 1×1 image with pixel
(10,20,30) returns that pixel's own RGB. -/
theorem c5_opaque_image_unchanged_witness :
    change_background (solidImage ⟨10, 20, 30, 255⟩)
        (some ['#', '0', '0', 'F', 'F', '0', '0']) =
      .ok (compositeOverColor (solidImage ⟨10, 20, 30, 255⟩) (0, 255, 0)) ∧
    (compositeOverColor (solidImage ⟨10, 20, 30, 255⟩) (0, 255, 0)).px 0 0 =
      ⟨((solidImage ⟨10, 20, 30, 255⟩).px 0 0).r,
       ((solidImage ⟨10, 20, 30, 255⟩).px 0 0).g,
       ((solidImage ⟨10, 20, 30, 255⟩).px 0 0).b, 255⟩ := by
  have h := c5_opaque_image_unchanged ['#', '0', '0', 'F', 'F', '0', '0']
    (0, 255, 0) (solidImage ⟨10, 20, 30, 255⟩) rfl (fun _ _ => rfl)
  exact ⟨h.1, h.2 0 0⟩

/-- C6: for every color string the parse accepts and every RGBA input
image whose alpha is 0 at every pixel, the composite succeeds and every
output pixel equals the background color. -/
theorem c6_transparent_image_is_background (s : List Char)
    (c : Nat × Nat × Nat) (image : Img) (hs : hexColor s = some c)
    (ha : ∀ x y, (image.px x y).a = 0) :
    change_background image (some s) = .ok (compositeOverColor image c) ∧
      ∀ x y, (compositeOverColor image c).px x y = ⟨c.1, c.2.1, c.2.2, 255⟩ := by
  constructor
  · simp [change_background, hs]
  · intro x y
    simp only [compositeOverColor, ha x y, overChannel_transparent]

/-- C6 witness: color `#102030` over a fully transparent 1×1 image returns
the background color (16,32,48). -/
theorem c6_transparent_image_is_background_witness :
    change_background (solidImage ⟨200, 100, 50, 0⟩)
        (some ['#', '1', '0', '2', '0', '3', '0']) =
      .ok (compositeOverColor (solidImage ⟨200, 100, 50, 0⟩) (16, 32, 48)) ∧
    (compositeOverColor (solidImage ⟨200, 100, 50, 0⟩) (16, 32, 48)).px 0 0 =
      ⟨16, 32, 48, 255⟩ := by
  have h := c6_transparent_image_is_background ['#', '1', '0', '2', '0', '3', '0']
    (16, 32, 48) (solidImage ⟨200, 100, 50, 0⟩) rfl (fun _ _ => rfl)
  exact ⟨h.1, h.2 0 0⟩

/-- C9: for every request in which the `background_color` field is absent,
the composite uses white — the default `'#FFFFFF'` parses to (255,255,255)
and the operation composites over exactly that color. -/
theorem c9_default_background_white :
    (∀ image : Img,
        change_background image none =
          .ok (compositeOverColor image (255, 255, 255))) ∧
      hexColor defaultBgColor = some (255, 255, 255) := by
  exact ⟨fun _ => rfl, rfl⟩

/-- A character the hex parse accepts is not `'#'`. -/
theorem hexVal_ne_hash {c : Char} {d : Nat} (h : hexVal c = some d) :
    c ≠ '#' := by
  intro hc
  subst hc
  simp [hexVal] at h

/-- `lstrip('#')` over a run of `'#'` characters followed by a
non-`'#'`-headed tail returns exactly the tail. -/
theorem dropWhile_hash_append (pre : List Char) (c0 : Char) (l : List Char)
    (hpre : ∀ c ∈ pre, c = '#') (hc : c0 ≠ '#') :
    (pre ++ c0 :: l).dropWhile (· = '#') = c0 :: l := by
  induction pre with
  | nil => simp [List.dropWhile_cons, hc]
  | cons a pre ih =>
    have ha : a = '#' := hpre a (by simp)
    subst ha
    simp only [List.cons_append, List.dropWhile_cons, decide_True,
      if_pos rfl]
    exact ih fun c hcp => hpre c (by simp [hcp])

/-- The Python hex `int` of two accepted digit characters. -/
theorem pyIntHex_pair {c0 c1 : Char} {d0 d1 : Nat}
    (h0 : hexVal c0 = some d0) (h1 : hexVal c1 = some d1) :
    pyIntHex [c0, c1] = some (16 * d0 + d1) := by
  simp [pyIntHex, h0, h1]

/-- C10: for every background-color string whose first six characters
after stripping leading `'#'` characters are hex digits, the composite
succeeds and uses exactly those six digits as the color, whatever
characters follow them — over-long strings such as `#FFFFFF00` are
accepted silently, not rejected as wrong-length input. -/
theorem c10_extra_hex_digits_accepted (pre : List Char)
    (c0 c1 c2 c3 c4 c5 : Char) (rest : List Char) (image : Img)
    (d0 d1 d2 d3 d4 d5 : Nat) (hpre : ∀ c ∈ pre, c = '#')
    (h0 : hexVal c0 = some d0) (h1 : hexVal c1 = some d1)
    (h2 : hexVal c2 = some d2) (h3 : hexVal c3 = some d3)
    (h4 : hexVal c4 = some d4) (h5 : hexVal c5 = some d5) :
    hexColor (pre ++ c0 :: c1 :: c2 :: c3 :: c4 :: c5 :: rest) =
        some (16 * d0 + d1, 16 * d2 + d3, 16 * d4 + d5) ∧
      change_background image
          (some (pre ++ c0 :: c1 :: c2 :: c3 :: c4 :: c5 :: rest)) =
        .ok (compositeOverColor image
          (16 * d0 + d1, 16 * d2 + d3, 16 * d4 + d5)) := by
  have hdrop := dropWhile_hash_append pre c0
    (c1 :: c2 :: c3 :: c4 :: c5 :: rest) hpre (hexVal_ne_hash h0)
  have hcolor : hexColor (pre ++ c0 :: c1 :: c2 :: c3 :: c4 :: c5 :: rest) =
      some (16 * d0 + d1, 16 * d2 + d3, 16 * d4 + d5) := by
    simp only [hexColor, hdrop, sliceTwo, List.drop_zero, List.take_cons,
      List.drop_succ_cons]
    rw [show (c0 :: c1 :: c2 :: c3 :: c4 :: c5 :: rest).take 2 = [c0, c1] from rfl,
      show (c2 :: c3 :: c4 :: c5 :: rest).take 2 = [c2, c3] from rfl,
      show (c4 :: c5 :: rest).take 2 = [c4, c5] from rfl,
      pyIntHex_pair h0 h1, pyIntHex_pair h2 h3, pyIntHex_pair h4 h5]
  exact ⟨hcolor, by simp [change_background, hcolor]⟩

/-- C10 witness: `#FFFFFF00` is accepted silently as white. -/
theorem c10_extra_hex_digits_accepted_witness :
    hexColor (['#'] ++ 'F' :: 'F' :: 'F' :: 'F' :: 'F' :: 'F' :: ['0', '0']) =
        some (16 * 15 + 15, 16 * 15 + 15, 16 * 15 + 15) ∧
      change_background (solidImage ⟨5, 6, 7, 0⟩)
          (some (['#'] ++ 'F' :: 'F' :: 'F' :: 'F' :: 'F' :: 'F' :: ['0', '0'])) =
        .ok (compositeOverColor (solidImage ⟨5, 6, 7, 0⟩)
          (16 * 15 + 15, 16 * 15 + 15, 16 * 15 + 15)) := by
  exact c10_extra_hex_digits_accepted ['#'] 'F' 'F' 'F' 'F' 'F' 'F' ['0', '0']
    (solidImage ⟨5, 6, 7, 0⟩) 15 15 15 15 15 15
    (by intro c hc; simpa using hc) rfl rfl rfl rfl rfl rfl

/- ## Background removal (src/app.py lines 29-146) -/

/-- PIL `image.convert('RGBA')` on the RGB input (line 90): keeps the RGB
channels and sets the alpha channel fully opaque. -/
def convertRGBA (image : Img) : Img :=
  { width := image.width, height := image.height,
    px := fun x y =>
      let p := image.px x y
      { r := p.r, g := p.g, b := p.b, a := 255 } }

/-- Modelled from the spec: the classical classifier pipeline of
remove_background_opencv (lines 39-85) — `cv2.grabCut` seeded by the
rectangle `(10, 10, width-20, height-20)` (lines 48-54), followed by the
Gaussian blur, morphological clean-up and PIL alpha smoothing — is
external library computation whose successful output is opaque to this
repository. It is modelled as: the classifier throws (`none`) exactly when
the inset rectangle is degenerate (a dimension ≤ 2·margin = 20, making the
rectangle's width or height non-positive); otherwise it yields an alpha
mask supplied by the parameter `mask`. -/
def grabCutModel (mask : Img → Nat → Nat → Nat) (image : Img) :
    Option (Nat → Nat → Nat) :=
  if 20 < image.width ∧ 20 < image.height then some (mask image) else none

/-- remove_background_opencv, lines 33-90: the body of the `try` block
(abstracted as `classify`, see `grabCutModel`) merges the input's RGB
channels with the computed alpha mask (lines 71-83); the `except` handler
(lines 87-90) returns `image.convert('RGBA')` — the original image with a
fully opaque alpha channel — whenever the classifier raises. -/
def remove_background_opencv (classify : Img → Option (Nat → Nat → Nat))
    (image : Img) : Img :=
  match classify image with
  | some alphaMask =>
    { width := image.width, height := image.height,
      px := fun x y =>
        let p := image.px x y
        { r := p.r, g := p.g, b := p.b, a := alphaMask x y } }
  | none => convertRGBA image

/-- The segmentation backend selected once at process start
(BG_REMOVAL_METHOD, lines 12-27): `"rembg"`, `"opencv"`, or `"none"` when
neither library imports. -/
inductive BgMethod where
  | rembg
  | opencv
  | unavailable
deriving DecidableEq, Repr

/-- remove_background endpoint, lines 101-146, after transport decoding.
`file` is `none` when the multipart field `image` is absent (→ 400, line
105); `some none` when the field is present but `Image.open` raises on its
bytes (caught by the generic handler → 500); `some (some img)` when it
decodes (line 113 converts it to RGB). With method `"rembg"` the external
model (parameter `rembgF`) runs; with `"opencv"` the classical pipeline
runs; with no method available the endpoint returns the explicit
`'No background removal method available'` error with HTTP 500 (line 122)
before any image operation is attempted. -/
def remove_background (method : BgMethod) (rembgF : Img → Img)
    (classify : Img → Option (Nat → Nat → Nat)) (file : Option (Option Img)) :
    Except ApiErr Img :=
  match file with
  | none => .error .inputMissing
  | some none => .error .processingFailure
  | some (some image) =>
    match method with
    | .rembg => .ok (convertRGBA (rembgF image))
    | .opencv => .ok (remove_background_opencv classify image)
    | .unavailable => .error .serviceUnavailable

/-- C4: under the classical backend, whenever the classifier throws,
segment does not fail — it returns the original image converted to RGBA,
whose every pixel keeps the input's RGB values and carries alpha 255. -/
theorem c4_classifier_fallback_opaque
    (classify : Img → Option (Nat → Nat → Nat)) (image : Img)
    (h : classify image = none) :
    remove_background_opencv classify image = convertRGBA image ∧
      ∀ x y, (remove_background_opencv classify image).px x y =
        ⟨(image.px x y).r, (image.px x y).g, (image.px x y).b, 255⟩ := by
  have hfb : remove_background_opencv classify image = convertRGBA image := by
    simp [remove_background_opencv, h]
  exact ⟨hfb, fun x y => by rw [hfb]; rfl⟩

/-- A 2-pixel-wide image, too small for the fixed 10px inset rectangle. -/
def twoPixelWideImage : Img :=
  { width := 2, height := 30, px := fun _ _ => ⟨40, 50, 60, 255⟩ }

/-- C4 witness: on the 2-pixel-wide image the modelled GrabCut classifier
throws (the inset rectangle is degenerate), and the classical backend
returns the fully opaque RGBA copy of the input. -/
theorem c4_classifier_fallback_opaque_witness :
    remove_background_opencv (grabCutModel fun _ _ _ => 0) twoPixelWideImage =
        convertRGBA twoPixelWideImage ∧
      (remove_background_opencv (grabCutModel fun _ _ _ => 0)
          twoPixelWideImage).px 0 0 =
        ⟨(twoPixelWideImage.px 0 0).r, (twoPixelWideImage.px 0 0).g,
         (twoPixelWideImage.px 0 0).b, 255⟩ := by
  have h := c4_classifier_fallback_opaque (grabCutModel fun _ _ _ => 0)
    twoPixelWideImage rfl
  exact ⟨h.1, h.2 0 0⟩

/-- C8: when no segmentation backend is available, every call that reaches
the segmentation step (the file is present and decodes) fails with the
ServiceUnavailable condition, which is a distinct condition from the
per-image `processingFailure` error. -/
theorem c8_no_backend_service_unavailable (rembgF : Img → Img)
    (classify : Img → Option (Nat → Nat → Nat)) (image : Img) :
    remove_background .unavailable rembgF classify (some (some image)) =
        .error .serviceUnavailable ∧
      ApiErr.serviceUnavailable ≠ ApiErr.processingFailure ∧
      statusOf .serviceUnavailable = 500 := by
  exact ⟨rfl, by decide, rfl⟩
